import Mathlib

/-!
Verification development for the hyperglass query gateway
(src/hyperglass/hyperglass.py).  The request handler `hyperglass_main`,
the administrative `clear_cache` coroutine, the Redis cache accessed
through `r_cache` and the Prometheus counters are shallowly embedded as
pure Lean functions; the backend `Execute(lg_data).response()` call is an
oracle parameter.  Time is an explicit `Nat` parameter of every cache
access, and the possibility that the awaited Redis calls of one request
execute at different instants is kept by passing one instant per call
site.
-/

/-- One step of Python repr() escaping for str values, in accumulator
form: `pyEscapeTo s tail` is the escaped rendering of `s` followed by
`tail`.  Backslash and single quote are escaped with a leading backslash;
every other character is emitted unchanged.  (CPython's repr switches to
double-quote delimiters when the text contains a single quote and no
double quote; both conventions are injective serializations, which is all
this development relies on.) -/
def pyEscapeTo : List Char → List Char → List Char
  | [], tail => tail
  | c :: rest, tail =>
    if c = '\\' ∨ c = '\x27' then '\\' :: c :: pyEscapeTo rest tail
    else c :: pyEscapeTo rest tail

/-- Python repr() of a string: single-quote delimited, escaped body,
followed by `tail`. -/
def pyReprTo (s : String) (tail : List Char) : List Char :=
  '\x27' :: pyEscapeTo s.data ('\x27' :: tail)

/-- One `key: value` pair of a Python dict rendering, followed by `tail`. -/
def pyPairTo (kv : String × String) (tail : List Char) : List Char :=
  pyReprTo kv.1 (':' :: ' ' :: pyReprTo kv.2 tail)

/-- The comma-separated pairs of a Python dict rendering, followed by
`tail`. -/
def pyDictCharsTo : List (String × String) → List Char → List Char
  | [], tail => tail
  | [kv], tail => pyPairTo kv tail
  | kv :: rest, tail => pyPairTo kv (',' :: ' ' :: pyDictCharsTo rest tail)

/-- Python str() of the parsed JSON body, a string-valued dict in the
key order of the incoming document (source line 251:
cache_key = str(lg_data)).  A dict parsed from JSON preserves the
document's key order, so the rendering depends on that order. -/
def pyDictStr (d : List (String × String)) : String :=
  String.mk ('\x7b' :: pyDictCharsTo d ['\x7d'])

/-- Subscript lookup `d[k]` on the parsed JSON body.  The list stands for
a Python dict (duplicate-free, in document key order); a missing key is
`none`, which at the call sites of the handler means a KeyError. -/
def dictGet (d : List (String × String)) (k : String) : Option String :=
  match d with
  | [] => none
  | (k2, v) :: rest => if k2 = k then some v else dictGet rest k

/-- An opaque Python value returned by Execute(lg_data).response(): a
string, None, or (per the commented-out literal_eval deserialization in
the source, lines 293-295) a stringified tuple payload. -/
inductive PyVal where
  | pstr (s : String)
  | pnone
  | ptup (a b : String)
deriving DecidableEq

/-- Python truthiness of a backend payload (source line 277:
`if not cache_value`). -/
def PyVal.truthy : PyVal → Bool
  | .pstr s => s != ""
  | .pnone => false
  | .ptup _ _ => true

/-- Python str() of a backend payload (source line 285:
`str(cache_value)`). -/
def PyVal.toStr : PyVal → String
  | .pstr s => s
  | .pnone => "None"
  | .ptup a b => String.mk ('(' :: pyReprTo a (',' :: ' ' :: pyReprTo b [')']))

/-- A Redis entry as seen through r_cache (decode_responses=True, so the
value is a string); `expiresAt` is the absolute expiry instant, `none`
meaning no TTL attached. -/
structure CacheEntry where
  value : String
  expiresAt : Option Nat
deriving DecidableEq

/-- The Redis key/value store behind r_cache. -/
abbrev Cache := String → Option CacheEntry

/-- An empty store (also the state after FLUSHDB). -/
def Cache.empty : Cache := fun _ => none

/-- r_cache.get at time `now`: the value if present and unexpired. -/
def Cache.get (c : Cache) (k : String) (now : Nat) : Option String :=
  match c k with
  | none => none
  | some e =>
    match e.expiresAt with
    | none => some e.value
    | some exp => if now < exp then some e.value else none

/-- r_cache.set: store a value; as in Redis, SET discards any previous
TTL of the key. -/
def Cache.set (c : Cache) (k v : String) : Cache :=
  fun k2 => if k2 = k then some { value := v, expiresAt := none } else c k2

/-- r_cache.expire at time `now`: attach a TTL of `ttl` time units, so
the key is absent from time `now + ttl` on. -/
def Cache.expire (c : Cache) (k : String) (now ttl : Nat) : Cache :=
  fun k2 =>
    if k2 = k then (c k).map fun e => { value := e.value, expiresAt := some (now + ttl) }
    else c k2

/-- Modelled from the spec: the error payload shape carried by the typed
backend failures and read field-by-field (status, message, keywords) by
handle_ui_errors (source lines 131-144); the exceptions module defining
`__dict__()` is not part of the source under verification. -/
structure UiMsg where
  status : Nat
  message : String
  keywords : List String
deriving DecidableEq

/-- Modelled from the spec: the configuration surface the handler reads -
the configured device set (devices.hostnames), the supported query-type
set consulted by Supported.is_supported_query, the cache TTL
(params.features.cache.timeout) and the user-facing messages
(params.messages.no_input, params.messages.request_timeout); the
configuration and constants modules are not part of the source under
verification. -/
structure Config where
  hostnames : List String
  supported : List String
  cacheTimeout : Nat
  noInput : String
  requestTimeout : UiMsg

/-- The instants at which the three awaited cache accesses of one request
execute: the presence check (source line 258), the set/expire pair
(lines 285-286), and the final get (line 291).  They are separate awaited
calls, so time may pass between them. -/
structure Times where
  tCheck : Nat
  tSet : Nat
  tFinal : Nat

/-- Outcome of Execute(lg_data).response(): a payload, or one of the
typed failures (AuthError, RestError, ScrapeError, InputInvalid,
InputNotAllowed) whose `__dict__()` fields the handler re-raises inside
InvalidUsage (source lines 263-272). -/
inductive BackendOutcome where
  | value (v : PyVal)
  | err (status : Nat) (message : String) (keywords : List String)
deriving DecidableEq

/-- Which un-awaited handler coroutine a `raise` statement was applied to
(source lines 226, 231, 236 raise handle_missing(...); line 278 raises
handle_ui_errors(...)).  Raising a coroutine object is a TypeError in
Python - a coroutine is not a BaseException - so the carried payload is
never delivered and the handler body never runs; the payload is recorded
here to document the intent of the source line. -/
inductive RaisedCo where
  | handleMissing (msg : String)
  | handleUiErrors (m : UiMsg)
deriving DecidableEq

/-- The transport-visible outcome of one /query request. -/
inductive HResult where
  | ok (output : Option String)
  | uiError (status : Nat) (message : String) (keywords : List String)
  | raisedCoroutine (intended : RaisedCo)
  | cacheFailure
  | keyError
deriving DecidableEq

/-- HTTP status of an outcome.  `ok` is the explicit status=200 of line
301; `uiError` is the status handle_ui_errors passes to response.json
(line 145); raising a non-exception, an unhandled Redis error and a
KeyError all surface as the framework's generic 500 (no handler is
registered for TypeError, ConnectionError or KeyError). -/
def HResult.httpStatus : HResult → Nat
  | .ok _ => 200
  | .uiError st _ _ => st
  | .raisedCoroutine _ => 500
  | .cacheFailure => 500
  | .keyError => 500

/-- Observable effects of one /query request: the response, the cache
state afterwards, whether Execute was invoked, how often count_data and
count_errors were incremented, and how many r_cache read (get) and write
(set) calls were issued. -/
structure RunResult where
  resp : HResult
  cache : Cache
  dispatched : Bool
  dataCount : Nat
  errorCount : Nat
  cacheGets : Nat
  cacheSets : Nat

/-- The /query handler (source lines 211-301), embedded step by step:
target/location/query_type validation (224-236, each failure raising the
un-awaited handle_missing coroutine), the count_data increment (242-244),
cache_key = str(lg_data) (251), the falsy presence check on
r_cache.get (258), dispatch to Execute on a miss (264) with the typed
failures re-raised as InvalidUsage (265-272, routed to handle_ui_errors,
which increments count_errors and answers with the carried status), the
falsy-result check raising the un-awaited handle_ui_errors coroutine
(277-278), the set/expire write-through (285-286), and the final get
whose result is returned verbatim with status 200 (291-301).  `cacheUp`
says whether Redis is reachable: no cache call is wrapped in a
try/except, so an unreachable store makes the first get raise and the
exception propagate out of the handler. -/
def hyperglass_main (cfg : Config) (lg_data : List (String × String))
    (backend : List (String × String) → BackendOutcome)
    (cacheUp : Bool) (c : Cache) (t : Times) : RunResult :=
  match dictGet lg_data "target" with
  | none =>
    { resp := .keyError, cache := c, dispatched := false,
      dataCount := 0, errorCount := 0, cacheGets := 0, cacheSets := 0 }
  | some target =>
  if target = "" then
    { resp := .raisedCoroutine (.handleMissing cfg.noInput), cache := c,
      dispatched := false, dataCount := 0, errorCount := 0,
      cacheGets := 0, cacheSets := 0 }
  else
  match dictGet lg_data "location" with
  | none =>
    { resp := .keyError, cache := c, dispatched := false,
      dataCount := 0, errorCount := 0, cacheGets := 0, cacheSets := 0 }
  | some location =>
  if location ∉ cfg.hostnames then
    { resp := .raisedCoroutine (.handleMissing cfg.noInput), cache := c,
      dispatched := false, dataCount := 0, errorCount := 0,
      cacheGets := 0, cacheSets := 0 }
  else
  match dictGet lg_data "query_type" with
  | none =>
    { resp := .keyError, cache := c, dispatched := false,
      dataCount := 0, errorCount := 0, cacheGets := 0, cacheSets := 0 }
  | some query_type =>
  if query_type ∉ cfg.supported then
    { resp := .raisedCoroutine (.handleMissing cfg.noInput), cache := c,
      dispatched := false, dataCount := 0, errorCount := 0,
      cacheGets := 0, cacheSets := 0 }
  else
  let cache_key := pyDictStr lg_data
  if cacheUp then
    let cached := Cache.get c cache_key t.tCheck
    if cached = none ∨ cached = some "" then
      match backend lg_data with
      | .err st msg kws =>
        { resp := .uiError st msg kws, cache := c, dispatched := true,
          dataCount := 1, errorCount := 1, cacheGets := 1, cacheSets := 0 }
      | .value v =>
        if v.truthy = false then
          { resp := .raisedCoroutine (.handleUiErrors cfg.requestTimeout),
            cache := c, dispatched := true, dataCount := 1,
            errorCount := 0, cacheGets := 1, cacheSets := 0 }
        else
          let c2 := Cache.expire (Cache.set c cache_key v.toStr) cache_key
            t.tSet cfg.cacheTimeout
          { resp := .ok (Cache.get c2 cache_key t.tFinal), cache := c2,
            dispatched := true, dataCount := 1, errorCount := 0,
            cacheGets := 2, cacheSets := 1 }
    else
      { resp := .ok (Cache.get c cache_key t.tFinal), cache := c,
        dispatched := false, dataCount := 1, errorCount := 0,
        cacheGets := 2, cacheSets := 0 }
  else
    { resp := .cacheFailure, cache := c, dispatched := false,
      dataCount := 1, errorCount := 0, cacheGets := 1, cacheSets := 0 }

/-- The administrative flush (source lines 187-194): FLUSHDB inside a
try/except; a failure of the store is caught and re-raised as
HyperglassError, carried here as the `Except.error` message. -/
def clear_cache (cacheUp : Bool) (c : Cache) : Except String (String × Cache) :=
  if cacheUp then .ok ("Successfully cleared cache", Cache.empty)
  else .error "Error clearing cache"

/-- A request body that passes the three validation checks of lines
224-236: a non-empty target, a location among the configured hostnames,
and a supported query type. -/
def ValidReq (cfg : Config) (lg : List (String × String)) : Prop :=
  ∃ target location query_type,
    dictGet lg "target" = some target ∧ target ≠ "" ∧
    dictGet lg "location" = some location ∧ location ∈ cfg.hostnames ∧
    dictGet lg "query_type" = some query_type ∧ query_type ∈ cfg.supported

/-- A fixed small configuration used for concrete evaluations. -/
def cfg0 : Config :=
  { hostnames := ["router1"], supported := ["bgp_route"], cacheTimeout := 120,
    noInput := "No input specified",
    requestTimeout := { status := 502, message := "Request timed out", keywords := ["timeout"] } }

/-- A valid request body. -/
def lgValid : List (String × String) :=
  [("target", "8.8.8.8"), ("location", "router1"), ("query_type", "bgp_route")]

/-- The same field values as `lgValid`, in a different document order. -/
def lgValidReordered : List (String × String) :=
  [("location", "router1"), ("target", "8.8.8.8"), ("query_type", "bgp_route")]

/-- A request body with an empty target. -/
def lgEmptyTarget : List (String × String) :=
  [("target", ""), ("location", "router1"), ("query_type", "bgp_route")]

/-- A request body with an unconfigured location. -/
def lgBadLocation : List (String × String) :=
  [("target", "8.8.8.8"), ("location", "nowhere"), ("query_type", "bgp_route")]

/-- A request body with an unsupported query type. -/
def lgBadQuery : List (String × String) :=
  [("target", "8.8.8.8"), ("location", "router1"), ("query_type", "telnet")]

/-- A backend that answers with a fixed non-empty string payload. -/
def backendOk : List (String × String) → BackendOutcome :=
  fun _ => .value (.pstr "PAYLOAD")

/-- A backend that answers with an empty (falsy) payload. -/
def backendEmpty : List (String × String) → BackendOutcome :=
  fun _ => .value (.pstr "")

/-- A backend that raises a typed failure. -/
def backendErr : List (String × String) → BackendOutcome :=
  fun _ => .err 401 "Authentication failed" ["auth", "denied"]

/-- A backend whose payload is a tuple, not a string. -/
def backendTup : List (String × String) → BackendOutcome :=
  fun _ => .value (.ptup "AS64500" "192.0.2.1")


/-- A truthy backend payload never stringifies to the empty string, so
the gateway never writes an empty value into the cache. -/
lemma PyVal.toStr_ne_empty {v : PyVal} (h : v.truthy = true) : v.toStr ≠ "" := by
  cases v with
  | pstr s =>
    simp only [PyVal.truthy, bne_iff_ne, ne_eq] at h
    simpa [PyVal.toStr] using h
  | pnone => simp [PyVal.truthy] at h
  | ptup a b =>
    intro hEq
    exact List.noConfusion (congrArg String.data hEq)

/-- The single quote terminates an escaped rendering unambiguously: the
escape output contains a quote only as the second half of an escape pair,
so equal renderings followed by a quote force equal sources and tails. -/
lemma pyEscapeTo_cancel (s1 : List Char) : ∀ s2 r1 r2 : List Char,
    pyEscapeTo s1 ('\x27' :: r1) = pyEscapeTo s2 ('\x27' :: r2) →
    s1 = s2 ∧ r1 = r2 := by
  induction s1 with
  | nil =>
    intro s2 r1 r2 h
    cases s2 with
    | nil =>
      simp only [pyEscapeTo] at h
      injection h with _ h2
      exact ⟨rfl, h2⟩
    | cons c t =>
      exfalso
      simp only [pyEscapeTo] at h
      by_cases hc : c = '\\' ∨ c = '\x27'
      · rw [if_pos hc] at h
        injection h with ha _
        exact absurd ha (by decide)
      · rw [if_neg hc] at h
        injection h with ha _
        exact hc (Or.inr ha.symm)
  | cons c1 t1 ih =>
    intro s2 r1 r2 h
    cases s2 with
    | nil =>
      exfalso
      simp only [pyEscapeTo] at h
      by_cases hc : c1 = '\\' ∨ c1 = '\x27'
      · rw [if_pos hc] at h
        injection h with ha _
        exact absurd ha (by decide)
      · rw [if_neg hc] at h
        injection h with ha _
        exact hc (Or.inr ha)
    | cons c2 t2 =>
      simp only [pyEscapeTo] at h
      by_cases hA : c1 = '\\' ∨ c1 = '\x27' <;> by_cases hB : c2 = '\\' ∨ c2 = '\x27'
      · rw [if_pos hA, if_pos hB] at h
        injection h with _ hb
        injection hb with hb1 hb2
        obtain ⟨ht, hr⟩ := ih t2 r1 r2 hb2
        exact ⟨by rw [hb1, ht], hr⟩
      · rw [if_pos hA, if_neg hB] at h
        injection h with ha _
        exact absurd (Or.inl ha.symm) hB
      · rw [if_neg hA, if_pos hB] at h
        injection h with ha _
        exact absurd (Or.inl ha) hA
      · rw [if_neg hA, if_neg hB] at h
        injection h with ha hb
        obtain ⟨ht, hr⟩ := ih t2 r1 r2 hb
        exact ⟨by rw [ha, ht], hr⟩

/-- The character spine of the cache key of a canonical three-field
request body, fully unfolded; definitionally equal to
`(pyDictStr [("target", t), ("location", l), ("query_type", q)]).data`. -/
def keySpine (t l q : String) : List Char :=
  '\x7b' :: '\x27' :: 't' :: 'a' :: 'r' :: 'g' :: 'e' :: 't' :: '\x27' :: ':' :: ' ' :: '\x27' ::
    pyEscapeTo t.data ('\x27' :: ',' :: ' ' :: '\x27' :: 'l' :: 'o' :: 'c' :: 'a' :: 't' ::
      'i' :: 'o' :: 'n' :: '\x27' :: ':' :: ' ' :: '\x27' ::
      pyEscapeTo l.data ('\x27' :: ',' :: ' ' :: '\x27' :: 'q' :: 'u' :: 'e' :: 'r' :: 'y' ::
        '_' :: 't' :: 'y' :: 'p' :: 'e' :: '\x27' :: ':' :: ' ' :: '\x27' ::
        pyEscapeTo q.data ('\x27' :: '\x7d' :: [])))

/-- The cache key of a canonical three-field body unfolds to its spine. -/
lemma keySpine_eq (t l q : String) :
    (pyDictStr [("target", t), ("location", l), ("query_type", q)]).data = keySpine t l q := rfl

/-- C6 (amended): the cache key str(lg_data) is deterministic and
injective over the field values for a fixed document key order: two
bodies listing target, location, query_type in that order produce the
same key exactly when the three values coincide. -/
theorem claim6_amended_prop (t l q t' l' q' : String) :
    pyDictStr [("target", t), ("location", l), ("query_type", q)] =
      pyDictStr [("target", t'), ("location", l'), ("query_type", q')] ↔
    t = t' ∧ l = l' ∧ q = q' := by
  constructor
  · intro h
    have h0 : keySpine t l q = keySpine t' l' q' :=
      (keySpine_eq t l q).symm.trans ((congrArg String.data h).trans (keySpine_eq t' l' q'))
    simp only [keySpine, List.cons.injEq, eq_self_iff_true, true_and] at h0
    obtain ⟨ht, h1⟩ := pyEscapeTo_cancel _ _ _ _ h0
    simp only [List.cons.injEq, eq_self_iff_true, true_and] at h1
    obtain ⟨hl, h2⟩ := pyEscapeTo_cancel _ _ _ _ h1
    simp only [List.cons.injEq, eq_self_iff_true, true_and] at h2
    obtain ⟨hq, _⟩ := pyEscapeTo_cancel _ _ _ _ h2
    exact ⟨congrArg String.mk ht, congrArg String.mk hl, congrArg String.mk hq⟩
  · rintro ⟨rfl, rfl, rfl⟩
    rfl

/-- C6 (counterexample): two request bodies with identical target,
location and query_type values, differing only in document key order,
produce different cache keys; str(lg_data) is not order-independent. -/
theorem claim6_counterexample :
    pyDictStr lgValid ≠ pyDictStr lgValidReordered ∧
    dictGet lgValid "target" = dictGet lgValidReordered "target" ∧
    dictGet lgValid "location" = dictGet lgValidReordered "location" ∧
    dictGet lgValid "query_type" = dictGet lgValidReordered "query_type" := by decide

/-- C1: for every valid request whose cache key holds a live (unexpired)
entry, the handler answers 200 with exactly the cached value, leaves the
store unchanged and never invokes Execute; a second identical request
within the TTL window of a first miss-request returns the byte-identical
cached value without dispatching; and every entry the handler ever writes
has a non-empty value (so the liveness hypothesis covers all
gateway-written cache states - the presence check of line 258 is a
falsiness test, which coincides with presence for such values). -/
theorem claim1_prop :
    (∀ (cfg : Config) (lg : List (String × String))
        (backend : List (String × String) → BackendOutcome) (c : Cache) (now : Nat) (v : String),
      ValidReq cfg lg →
      Cache.get c (pyDictStr lg) now = some v → v ≠ "" →
      (hyperglass_main cfg lg backend true c ⟨now, now, now⟩).resp = .ok (some v) ∧
      (hyperglass_main cfg lg backend true c ⟨now, now, now⟩).dispatched = false ∧
      (hyperglass_main cfg lg backend true c ⟨now, now, now⟩).cache = c) ∧
    (∀ (cfg : Config) (lg : List (String × String))
        (backend : List (String × String) → BackendOutcome) (c : Cache) (t0 t2 : Nat) (v : PyVal),
      ValidReq cfg lg →
      Cache.get c (pyDictStr lg) t0 = none →
      backend lg = .value v → v.truthy = true →
      t2 < t0 + cfg.cacheTimeout →
      (hyperglass_main cfg lg backend true
          (hyperglass_main cfg lg backend true c ⟨t0, t0, t0⟩).cache ⟨t2, t2, t2⟩).resp
        = .ok (some v.toStr) ∧
      (hyperglass_main cfg lg backend true
          (hyperglass_main cfg lg backend true c ⟨t0, t0, t0⟩).cache ⟨t2, t2, t2⟩).dispatched
        = false) ∧
    (∀ (cfg : Config) (lg : List (String × String))
        (backend : List (String × String) → BackendOutcome) (up : Bool) (c : Cache)
        (t : Times) (k : String) (e : CacheEntry),
      (hyperglass_main cfg lg backend up c t).cache k = some e →
      c k = some e ∨ e.value ≠ "") := by
  refine ⟨?_, ?_, ?_⟩
  · intro cfg lg backend c now v hv hget hne
    obtain ⟨tg, loc, qt, h1, h2, h3, h4, h5, h6⟩ := hv
    simp only [hyperglass_main, h1, h3, h5, hget]
    rw [if_neg h2, if_neg (not_not_intro h4), if_neg (not_not_intro h6), if_pos trivial,
      if_neg (by simp [hne])]
    exact ⟨rfl, rfl, rfl⟩
  · intro cfg lg backend c t0 t2 v hv hmiss hb htr hlt
    obtain ⟨tg, loc, qt, h1, h2, h3, h4, h5, h6⟩ := hv
    have hc2 : (hyperglass_main cfg lg backend true c ⟨t0, t0, t0⟩).cache =
        Cache.expire (Cache.set c (pyDictStr lg) v.toStr) (pyDictStr lg) t0 cfg.cacheTimeout := by
      simp only [hyperglass_main, h1, h3, h5, hmiss, hb]
      rw [if_neg h2, if_neg (not_not_intro h4), if_neg (not_not_intro h6), if_pos trivial,
        if_pos (Or.inl trivial), htr, if_neg (by decide)]
    have hget2 : Cache.get
        (Cache.expire (Cache.set c (pyDictStr lg) v.toStr) (pyDictStr lg) t0 cfg.cacheTimeout)
        (pyDictStr lg) t2 = some v.toStr := by
      simp [Cache.get, Cache.expire, Cache.set, hlt]
    rw [hc2]
    simp only [hyperglass_main, h1, h3, h5, hget2]
    rw [if_neg h2, if_neg (not_not_intro h4), if_neg (not_not_intro h6), if_pos trivial,
      if_neg (by simp [PyVal.toStr_ne_empty htr])]
    exact ⟨rfl, rfl⟩
  · intro cfg lg backend up c t k e h
    simp only [hyperglass_main] at h
    split at h
    · exact Or.inl h
    · split at h
      · exact Or.inl h
      · split at h
        · exact Or.inl h
        · split at h
          · exact Or.inl h
          · split at h
            · exact Or.inl h
            · split at h
              · exact Or.inl h
              · split at h
                · split at h
                  · split at h
                    · exact Or.inl h
                    · rename_i v _
                      split at h
                      · exact Or.inl h
                      · rename_i htr
                        simp only [Cache.expire, Cache.set] at h
                        by_cases hk : k = pyDictStr lg
                        · rw [if_pos hk, if_pos trivial] at h
                          simp only [Option.map_some'] at h
                          injection h with h
                          refine Or.inr ?_
                          rw [← h]
                          exact PyVal.toStr_ne_empty (by simpa using htr)
                        · rw [if_neg hk, if_neg hk] at h
                          exact Or.inl h
                  · exact Or.inl h
                · exact Or.inl h

/-- A proof that the canonical concrete request body is valid for the
concrete configuration. -/
lemma validReq_lgValid : ValidReq cfg0 lgValid :=
  ⟨"8.8.8.8", "router1", "bgp_route", by decide, by decide, by decide, by decide,
    by decide, by decide⟩

/-- The cache holding the canonical key with a plain (never-expiring)
entry, for concrete cache-hit evaluations. -/
def cacheHit0 : Cache := Cache.set Cache.empty (pyDictStr lgValid) "PAYLOAD"

theorem claim1_witness :
    (hyperglass_main cfg0 lgValid backendErr true cacheHit0 ⟨0, 0, 0⟩).resp
        = .ok (some "PAYLOAD") ∧
    (hyperglass_main cfg0 lgValid backendErr true cacheHit0 ⟨0, 0, 0⟩).dispatched = false ∧
    (hyperglass_main cfg0 lgValid backendErr true cacheHit0 ⟨0, 0, 0⟩).cache = cacheHit0 :=
  claim1_prop.1 cfg0 lgValid backendErr cacheHit0 0 "PAYLOAD" validReq_lgValid
    (by decide) (by decide)

/-- C2: a request failing validation (empty target, unknown location, or
unsupported query type) never touches the cache and never dispatches, and
the handler executes `raise handle_missing(request, no_input)` - raising
the un-awaited coroutine rather than returning its response, so the
transport sees a generic 500 without the no-input payload rather than the
intended validation response. -/
theorem claim2_prop :
    ∀ (cfg : Config) (lg : List (String × String))
      (backend : List (String × String) → BackendOutcome) (up : Bool) (c : Cache) (t : Times),
      (dictGet lg "target" = some "" ∨
        (∃ tg loc, dictGet lg "target" = some tg ∧ tg ≠ "" ∧
          dictGet lg "location" = some loc ∧ loc ∉ cfg.hostnames) ∨
        (∃ tg loc qt, dictGet lg "target" = some tg ∧ tg ≠ "" ∧
          dictGet lg "location" = some loc ∧ loc ∈ cfg.hostnames ∧
          dictGet lg "query_type" = some qt ∧ qt ∉ cfg.supported)) →
      (hyperglass_main cfg lg backend up c t).resp
          = .raisedCoroutine (.handleMissing cfg.noInput) ∧
      (hyperglass_main cfg lg backend up c t).resp.httpStatus = 500 ∧
      (hyperglass_main cfg lg backend up c t).cacheGets = 0 ∧
      (hyperglass_main cfg lg backend up c t).cacheSets = 0 ∧
      (hyperglass_main cfg lg backend up c t).dispatched = false ∧
      (hyperglass_main cfg lg backend up c t).cache = c := by
  intro cfg lg backend up c t h
  rcases h with h | ⟨tg, loc, h1, h2, h3, h4⟩ | ⟨tg, loc, qt, h1, h2, h3, h4, h5, h6⟩
  · simp only [hyperglass_main, h]
    rw [if_pos trivial]
    exact ⟨rfl, rfl, rfl, rfl, rfl, rfl⟩
  · simp only [hyperglass_main, h1, h3]
    rw [if_neg h2, if_pos h4]
    exact ⟨rfl, rfl, rfl, rfl, rfl, rfl⟩
  · simp only [hyperglass_main, h1, h3, h5]
    rw [if_neg h2, if_neg (not_not_intro h4), if_pos h6]
    exact ⟨rfl, rfl, rfl, rfl, rfl, rfl⟩

theorem claim2_witness :
    (hyperglass_main cfg0 lgEmptyTarget backendOk true Cache.empty ⟨0, 0, 0⟩).resp
        = .raisedCoroutine (.handleMissing cfg0.noInput) ∧
    (hyperglass_main cfg0 lgEmptyTarget backendOk true Cache.empty ⟨0, 0, 0⟩).resp.httpStatus
        = 500 ∧
    (hyperglass_main cfg0 lgEmptyTarget backendOk true Cache.empty ⟨0, 0, 0⟩).cacheGets = 0 ∧
    (hyperglass_main cfg0 lgEmptyTarget backendOk true Cache.empty ⟨0, 0, 0⟩).cacheSets = 0 ∧
    (hyperglass_main cfg0 lgEmptyTarget backendOk true Cache.empty ⟨0, 0, 0⟩).dispatched
        = false ∧
    (hyperglass_main cfg0 lgEmptyTarget backendOk true Cache.empty ⟨0, 0, 0⟩).cache
        = Cache.empty :=
  claim2_prop cfg0 lgEmptyTarget backendOk true Cache.empty ⟨0, 0, 0⟩ (Or.inl (by decide))

/-- C3: a valid request on a miss whose backend dispatch returns a falsy
payload writes nothing to the cache and does not answer 200; the handler
executes `raise handle_ui_errors(request, request_timeout)` - raising the
un-awaited coroutine, so the transport sees a generic 500 and the
request-timeout payload (and its count_errors increment) never happens. -/
theorem claim3_prop :
    ∀ (cfg : Config) (lg : List (String × String))
      (backend : List (String × String) → BackendOutcome) (c : Cache) (t : Times) (v : PyVal),
      ValidReq cfg lg →
      Cache.get c (pyDictStr lg) t.tCheck = none →
      backend lg = .value v → v.truthy = false →
      (hyperglass_main cfg lg backend true c t).resp
          = .raisedCoroutine (.handleUiErrors cfg.requestTimeout) ∧
      (hyperglass_main cfg lg backend true c t).resp.httpStatus = 500 ∧
      (hyperglass_main cfg lg backend true c t).cacheSets = 0 ∧
      (hyperglass_main cfg lg backend true c t).cache = c ∧
      (hyperglass_main cfg lg backend true c t).dispatched = true ∧
      (hyperglass_main cfg lg backend true c t).errorCount = 0 := by
  intro cfg lg backend c t v hv hmiss hb htr
  obtain ⟨tg, loc, qt, h1, h2, h3, h4, h5, h6⟩ := hv
  simp only [hyperglass_main, h1, h3, h5, hmiss, hb, htr]
  rw [if_neg h2, if_neg (not_not_intro h4), if_neg (not_not_intro h6), if_pos trivial,
    if_pos (Or.inl trivial), if_pos trivial]
  exact ⟨rfl, rfl, rfl, rfl, rfl, rfl⟩

theorem claim3_witness :
    (hyperglass_main cfg0 lgValid backendEmpty true Cache.empty ⟨0, 0, 0⟩).resp
        = .raisedCoroutine (.handleUiErrors cfg0.requestTimeout) ∧
    (hyperglass_main cfg0 lgValid backendEmpty true Cache.empty ⟨0, 0, 0⟩).resp.httpStatus
        = 500 ∧
    (hyperglass_main cfg0 lgValid backendEmpty true Cache.empty ⟨0, 0, 0⟩).cacheSets = 0 ∧
    (hyperglass_main cfg0 lgValid backendEmpty true Cache.empty ⟨0, 0, 0⟩).cache
        = Cache.empty ∧
    (hyperglass_main cfg0 lgValid backendEmpty true Cache.empty ⟨0, 0, 0⟩).dispatched = true ∧
    (hyperglass_main cfg0 lgValid backendEmpty true Cache.empty ⟨0, 0, 0⟩).errorCount = 0 :=
  claim3_prop cfg0 lgValid backendEmpty Cache.empty ⟨0, 0, 0⟩ (.pstr "") validReq_lgValid
    (by decide) (by decide) (by decide)

/-- C4: a valid request on a miss whose backend dispatch raises a typed
failure is answered through InvalidUsage → handle_ui_errors with the
backend-supplied status, message and keywords as the JSON body fields,
the HTTP status equal to that status code, one count_errors increment,
and no cache write. -/
theorem claim4_prop :
    ∀ (cfg : Config) (lg : List (String × String))
      (backend : List (String × String) → BackendOutcome) (c : Cache) (t : Times)
      (st : Nat) (msg : String) (kws : List String),
      ValidReq cfg lg →
      Cache.get c (pyDictStr lg) t.tCheck = none →
      backend lg = .err st msg kws →
      (hyperglass_main cfg lg backend true c t).resp = .uiError st msg kws ∧
      (hyperglass_main cfg lg backend true c t).resp.httpStatus = st ∧
      (hyperglass_main cfg lg backend true c t).errorCount = 1 ∧
      (hyperglass_main cfg lg backend true c t).cacheSets = 0 ∧
      (hyperglass_main cfg lg backend true c t).cache = c := by
  intro cfg lg backend c t st msg kws hv hmiss hb
  obtain ⟨tg, loc, qt, h1, h2, h3, h4, h5, h6⟩ := hv
  simp only [hyperglass_main, h1, h3, h5, hmiss, hb]
  rw [if_neg h2, if_neg (not_not_intro h4), if_neg (not_not_intro h6), if_pos trivial,
    if_pos (Or.inl trivial)]
  exact ⟨rfl, rfl, rfl, rfl, rfl⟩

theorem claim4_witness :
    (hyperglass_main cfg0 lgValid backendErr true Cache.empty ⟨0, 0, 0⟩).resp
        = .uiError 401 "Authentication failed" ["auth", "denied"] ∧
    (hyperglass_main cfg0 lgValid backendErr true Cache.empty ⟨0, 0, 0⟩).resp.httpStatus
        = 401 ∧
    (hyperglass_main cfg0 lgValid backendErr true Cache.empty ⟨0, 0, 0⟩).errorCount = 1 ∧
    (hyperglass_main cfg0 lgValid backendErr true Cache.empty ⟨0, 0, 0⟩).cacheSets = 0 ∧
    (hyperglass_main cfg0 lgValid backendErr true Cache.empty ⟨0, 0, 0⟩).cache
        = Cache.empty :=
  claim4_prop cfg0 lgValid backendErr Cache.empty ⟨0, 0, 0⟩ 401 "Authentication failed"
    ["auth", "denied"] validReq_lgValid (by decide) (by decide)

/-- Full reduction of a valid miss-request whose backend returns a truthy
payload: the run writes the stringified payload under the cache key with
the configured TTL and answers with the final get. -/
lemma hyperglass_main_miss_value
    (cfg : Config) (lg : List (String × String))
    (backend : List (String × String) → BackendOutcome) (c : Cache) (t : Times) (v : PyVal)
    (hv : ValidReq cfg lg)
    (hmiss : Cache.get c (pyDictStr lg) t.tCheck = none)
    (hb : backend lg = .value v) (htr : v.truthy = true) :
    hyperglass_main cfg lg backend true c t =
      { resp := .ok (Cache.get
            (Cache.expire (Cache.set c (pyDictStr lg) v.toStr) (pyDictStr lg)
              t.tSet cfg.cacheTimeout) (pyDictStr lg) t.tFinal),
        cache := Cache.expire (Cache.set c (pyDictStr lg) v.toStr) (pyDictStr lg)
          t.tSet cfg.cacheTimeout,
        dispatched := true, dataCount := 1, errorCount := 0,
        cacheGets := 2, cacheSets := 1 } := by
  obtain ⟨tg, loc, qt, h1, h2, h3, h4, h5, h6⟩ := hv
  simp only [hyperglass_main, h1, h3, h5, hmiss, hb, htr]
  rw [if_neg h2, if_neg (not_not_intro h4), if_neg (not_not_intro h6), if_pos trivial,
    if_pos (Or.inl trivial), if_neg (by decide)]

/-- The freshly written entry reads back as the stringified payload while
the TTL has not elapsed. -/
lemma fresh_entry_get_live (c : Cache) (key s : String) (tSet ttl t2 : Nat)
    (h : t2 < tSet + ttl) :
    Cache.get (Cache.expire (Cache.set c key s) key tSet ttl) key t2 = some s := by
  simp [Cache.get, Cache.expire, Cache.set, h]

/-- The freshly written entry is absent once the TTL has elapsed. -/
lemma fresh_entry_get_dead (c : Cache) (key s : String) (tSet ttl t2 : Nat)
    (h : tSet + ttl ≤ t2) :
    Cache.get (Cache.expire (Cache.set c key s) key tSet ttl) key t2 = none := by
  simp [Cache.get, Cache.expire, Cache.set, Nat.not_lt.mpr h]

/-- C5: a valid request on a miss with a truthy backend result writes the
stringified result under the request's cache key with the configured TTL
before answering success with that value; from the instant the TTL
elapses the entry is absent from the store, and an identical request
arriving then dispatches to the backend again. -/
theorem claim5_prop :
    ∀ (cfg : Config) (lg : List (String × String))
      (backend : List (String × String) → BackendOutcome) (c : Cache) (t : Times) (v : PyVal),
      ValidReq cfg lg →
      Cache.get c (pyDictStr lg) t.tCheck = none →
      backend lg = .value v → v.truthy = true →
      t.tFinal < t.tSet + cfg.cacheTimeout →
      (hyperglass_main cfg lg backend true c t).cache (pyDictStr lg)
          = some { value := v.toStr, expiresAt := some (t.tSet + cfg.cacheTimeout) } ∧
      (hyperglass_main cfg lg backend true c t).resp = .ok (some v.toStr) ∧
      (hyperglass_main cfg lg backend true c t).cacheSets = 1 ∧
      (∀ t2, t.tSet + cfg.cacheTimeout ≤ t2 →
        Cache.get (hyperglass_main cfg lg backend true c t).cache (pyDictStr lg) t2 = none) ∧
      (∀ t2, t.tSet + cfg.cacheTimeout ≤ t2 →
        (hyperglass_main cfg lg backend true
          ((hyperglass_main cfg lg backend true c t).cache) ⟨t2, t2, t2⟩).dispatched
          = true) := by
  intro cfg lg backend c t v hv hmiss hb htr hfin
  have hrun := hyperglass_main_miss_value cfg lg backend c t v hv hmiss hb htr
  obtain ⟨tg, loc, qt, h1, h2, h3, h4, h5, h6⟩ := hv
  refine ⟨?_, ?_, ?_, ?_, ?_⟩
  · rw [hrun]
    simp [Cache.expire, Cache.set]
  · rw [hrun]
    rw [fresh_entry_get_live c (pyDictStr lg) v.toStr t.tSet cfg.cacheTimeout t.tFinal hfin]
  · rw [hrun]
  · intro t2 ht2
    rw [hrun]
    exact fresh_entry_get_dead c (pyDictStr lg) v.toStr t.tSet cfg.cacheTimeout t2 ht2
  · intro t2 ht2
    rw [hrun]
    have hg := fresh_entry_get_dead c (pyDictStr lg) v.toStr t.tSet cfg.cacheTimeout t2 ht2
    simp only [hyperglass_main, h1, h3, h5, hg, hb, htr]
    rw [if_neg h2, if_neg (not_not_intro h4), if_neg (not_not_intro h6), if_pos trivial,
      if_pos (Or.inl trivial), if_neg (by decide)]

theorem claim5_witness :
    (hyperglass_main cfg0 lgValid backendOk true Cache.empty ⟨0, 0, 0⟩).cache (pyDictStr lgValid)
        = some { value := "PAYLOAD", expiresAt := some 120 } ∧
    (hyperglass_main cfg0 lgValid backendOk true Cache.empty ⟨0, 0, 0⟩).resp
        = .ok (some "PAYLOAD") ∧
    (hyperglass_main cfg0 lgValid backendOk true Cache.empty ⟨0, 0, 0⟩).cacheSets = 1 ∧
    (∀ t2, 120 ≤ t2 →
      Cache.get (hyperglass_main cfg0 lgValid backendOk true Cache.empty ⟨0, 0, 0⟩).cache
        (pyDictStr lgValid) t2 = none) ∧
    (∀ t2, 120 ≤ t2 →
      (hyperglass_main cfg0 lgValid backendOk true
        ((hyperglass_main cfg0 lgValid backendOk true Cache.empty ⟨0, 0, 0⟩).cache)
        ⟨t2, t2, t2⟩).dispatched = true) :=
  claim5_prop cfg0 lgValid backendOk Cache.empty ⟨0, 0, 0⟩ (.pstr "PAYLOAD")
    validReq_lgValid (by decide) rfl (by decide) (by decide)

/-- C7 (counterexample): with the cache store unreachable, a valid
request does not degrade to a miss and does not proceed to backend
dispatch; the un-handled read failure fails the whole request as a 500. -/
theorem claim7_counterexample :
    (hyperglass_main cfg0 lgValid backendOk false Cache.empty ⟨0, 0, 0⟩).resp
        = .cacheFailure ∧
    (hyperglass_main cfg0 lgValid backendOk false Cache.empty ⟨0, 0, 0⟩).dispatched = false ∧
    (hyperglass_main cfg0 lgValid backendOk false Cache.empty ⟨0, 0, 0⟩).resp.httpStatus
        = 500 := by decide

/-- C7 (amended): a cache-store failure during the read hard-fails the
request - the exception propagates (500) and the backend is never
dispatched, because no cache call in the query path is wrapped in a
try/except; only clear_cache catches the store failure and re-raises it
as a HyperglassError to its caller, while a reachable store is flushed
empty with a success message. -/
theorem claim7_amended_prop :
    (∀ (cfg : Config) (lg : List (String × String))
        (backend : List (String × String) → BackendOutcome) (c : Cache) (t : Times),
      ValidReq cfg lg →
      (hyperglass_main cfg lg backend false c t).resp = .cacheFailure ∧
      (hyperglass_main cfg lg backend false c t).dispatched = false ∧
      (hyperglass_main cfg lg backend false c t).resp.httpStatus = 500 ∧
      (hyperglass_main cfg lg backend false c t).cacheSets = 0) ∧
    (∀ c : Cache, clear_cache false c = .error "Error clearing cache") ∧
    (∀ c : Cache, clear_cache true c = .ok ("Successfully cleared cache", Cache.empty)) := by
  refine ⟨?_, ?_, ?_⟩
  · intro cfg lg backend c t hv
    obtain ⟨tg, loc, qt, h1, h2, h3, h4, h5, h6⟩ := hv
    simp only [hyperglass_main, h1, h3, h5]
    rw [if_neg h2, if_neg (not_not_intro h4), if_neg (not_not_intro h6), if_neg (by decide)]
    exact ⟨rfl, rfl, rfl, rfl⟩
  · intro c
    rfl
  · intro c
    rfl

theorem claim7_witness :
    ((hyperglass_main cfg0 lgValid backendErr false Cache.empty ⟨0, 0, 0⟩).resp
        = .cacheFailure ∧
      (hyperglass_main cfg0 lgValid backendErr false Cache.empty ⟨0, 0, 0⟩).dispatched
        = false ∧
      (hyperglass_main cfg0 lgValid backendErr false Cache.empty ⟨0, 0, 0⟩).resp.httpStatus
        = 500 ∧
      (hyperglass_main cfg0 lgValid backendErr false Cache.empty ⟨0, 0, 0⟩).cacheSets = 0) ∧
    clear_cache false Cache.empty = .error "Error clearing cache" ∧
    clear_cache true Cache.empty = .ok ("Successfully cleared cache", Cache.empty) :=
  ⟨claim7_amended_prop.1 cfg0 lgValid backendErr Cache.empty ⟨0, 0, 0⟩ validReq_lgValid,
    claim7_amended_prop.2.1 Cache.empty, claim7_amended_prop.2.2 Cache.empty⟩

/-- C8 (counterexample): the metrics updates per request are not exactly
one per completion or failure: a valid request whose backend raises a
typed failure increments count_data and count_errors (two updates), and a
request failing validation increments neither (zero updates). -/
theorem claim8_counterexample :
    (hyperglass_main cfg0 lgValid backendErr true Cache.empty ⟨0, 0, 0⟩).dataCount +
        (hyperglass_main cfg0 lgValid backendErr true Cache.empty ⟨0, 0, 0⟩).errorCount = 2 ∧
    (hyperglass_main cfg0 lgEmptyTarget backendOk true Cache.empty ⟨0, 0, 0⟩).dataCount +
        (hyperglass_main cfg0 lgEmptyTarget backendOk true Cache.empty ⟨0, 0, 0⟩).errorCount
        = 0 := by decide

/-- C8 (amended): count_data is incremented exactly once by every request
that passes validation (and never otherwise, the increment preceding the
outcome), and count_errors is incremented exactly once on the
InvalidUsage → handle_ui_errors path (a typed backend failure) and never
otherwise - so a backend failure performs two updates, a validation
failure zero, and every other path one. -/
theorem claim8_amended_prop :
    ∀ (cfg : Config) (lg : List (String × String))
      (backend : List (String × String) → BackendOutcome) (up : Bool) (c : Cache) (t : Times),
      ((hyperglass_main cfg lg backend up c t).dataCount = 0 ∨
        (hyperglass_main cfg lg backend up c t).dataCount = 1) ∧
      ((hyperglass_main cfg lg backend up c t).errorCount = 1 ↔
        ∃ st msg kws, (hyperglass_main cfg lg backend up c t).resp = .uiError st msg kws) ∧
      ((hyperglass_main cfg lg backend up c t).errorCount = 0 ∨
        (hyperglass_main cfg lg backend up c t).errorCount = 1) ∧
      ((hyperglass_main cfg lg backend up c t).dataCount = 0 ↔
        ((hyperglass_main cfg lg backend up c t).resp = .keyError ∨
          (hyperglass_main cfg lg backend up c t).resp
            = .raisedCoroutine (.handleMissing cfg.noInput))) := by
  intro cfg lg backend up c t
  simp only [hyperglass_main]
  repeat' split
  all_goals simp

theorem claim8_witness :
    (hyperglass_main cfg0 lgValid backendOk true Cache.empty ⟨0, 0, 0⟩).dataCount = 0 ∨
    (hyperglass_main cfg0 lgValid backendOk true Cache.empty ⟨0, 0, 0⟩).dataCount = 1 :=
  (claim8_amended_prop cfg0 lgValid backendOk true Cache.empty ⟨0, 0, 0⟩).1

/-- C9: whenever the handler answers success, the output field is the
value read back by the final r_cache.get on the cache key (line 291),
never the backend's in-memory result; on a first (miss) request the
stored and returned value is the str() conversion of the backend
payload. -/
theorem claim9_prop :
    (∀ (cfg : Config) (lg : List (String × String))
        (backend : List (String × String) → BackendOutcome) (up : Bool) (c : Cache)
        (t : Times) (out : Option String),
      (hyperglass_main cfg lg backend up c t).resp = .ok out →
      out = Cache.get (hyperglass_main cfg lg backend up c t).cache (pyDictStr lg) t.tFinal) ∧
    (∀ (cfg : Config) (lg : List (String × String))
        (backend : List (String × String) → BackendOutcome) (c : Cache) (t : Times)
        (v : PyVal),
      ValidReq cfg lg →
      Cache.get c (pyDictStr lg) t.tCheck = none →
      backend lg = .value v → v.truthy = true →
      t.tFinal < t.tSet + cfg.cacheTimeout →
      (hyperglass_main cfg lg backend true c t).resp = .ok (some v.toStr) ∧
      Cache.get (hyperglass_main cfg lg backend true c t).cache (pyDictStr lg) t.tFinal
        = some v.toStr) := by
  constructor
  · intro cfg lg backend up c t out
    simp only [hyperglass_main]
    repeat' split
    all_goals intro h
    all_goals first
      | (injection h with h; exact h.symm)
      | simp at h
  · intro cfg lg backend c t v hv hmiss hb htr hfin
    have hrun := hyperglass_main_miss_value cfg lg backend c t v hv hmiss hb htr
    rw [hrun]
    have hg := fresh_entry_get_live c (pyDictStr lg) v.toStr t.tSet cfg.cacheTimeout
      t.tFinal hfin
    exact ⟨by rw [hg], hg⟩

theorem claim9_witness :
    (hyperglass_main cfg0 lgValid backendTup true Cache.empty ⟨0, 0, 0⟩).resp
        = .ok (some (PyVal.toStr (.ptup "AS64500" "192.0.2.1"))) ∧
    Cache.get (hyperglass_main cfg0 lgValid backendTup true Cache.empty ⟨0, 0, 0⟩).cache
        (pyDictStr lgValid) 0 = some (PyVal.toStr (.ptup "AS64500" "192.0.2.1")) :=
  claim9_prop.2 cfg0 lgValid backendTup Cache.empty ⟨0, 0, 0⟩ (.ptup "AS64500" "192.0.2.1")
    validReq_lgValid (by decide) rfl (by decide) (by decide)

/-- The cache state for C10: the canonical key written at time 0 with a
TTL of 10, so the entry is live at instant 5 and gone at instant 20. -/
def cacheShortTTL : Cache :=
  Cache.expire (Cache.set Cache.empty (pyDictStr lgValid) "PAYLOAD") (pyDictStr lgValid) 0 10

/-- C10: the success branch does not re-check the final get: in an
execution where the entry is live at the presence check (time 5) but
expired by the value fetch (time 20), the handler answers HTTP 200 with a
null output - no error and no re-dispatch. -/
theorem claim10_prop :
    Cache.get cacheShortTTL (pyDictStr lgValid) 5 = some "PAYLOAD" ∧
    Cache.get cacheShortTTL (pyDictStr lgValid) 20 = none ∧
    (hyperglass_main cfg0 lgValid backendOk true cacheShortTTL ⟨5, 5, 20⟩).resp = .ok none ∧
    (hyperglass_main cfg0 lgValid backendOk true cacheShortTTL ⟨5, 5, 20⟩).resp.httpStatus
        = 200 ∧
    (hyperglass_main cfg0 lgValid backendOk true cacheShortTTL ⟨5, 5, 20⟩).dispatched
        = false := by decide

theorem claim6_witness :
    pyDictStr [("target", "8.8.8.8"), ("location", "router1"), ("query_type", "bgp_route")]
      = pyDictStr [("target", "8.8.8.8"), ("location", "router1"), ("query_type", "bgp_route")] :=
  (claim6_amended_prop "8.8.8.8" "router1" "bgp_route" "8.8.8.8" "router1" "bgp_route").mpr
    ⟨rfl, rfl, rfl⟩
